import Mathlib

/-!
Verification of the USART driver in src/hardware/usart.c.

The development shallowly embeds the driver: uint32 arithmetic is Nat with
explicit reduction modulo 2 ^ 32 where C unsigned arithmetic wraps, the
int32 conversion is made explicit, hardware registers are a record of Nat
values truncated at each store to the register width, and the byte queues
(defined in hardware/fifo.*, which is not part of src) are modelled from
the spec as fixed-capacity lists.
-/

namespace Usart

/-- Bit index UMSEL10 of UCSR1C, taken from the AVR platform header avr/io.h
(the repository targets an AVR part with USART1; these positions are fixed
hardware facts, identical on every such part). -/
def UMSEL10 : Nat := 6

/-- Bit index UPM10 of UCSR1C (parity mode field low bit). -/
def UPM10 : Nat := 4

/-- Bit index USBS1 of UCSR1C (stop-bit select). -/
def USBS1 : Nat := 3

/-- Bit index UCSZ10 of UCSR1C (frame size field low bit). -/
def UCSZ10 : Nat := 1

/-- Bit index UCPOL1 of UCSR1C (clock polarity). -/
def UCPOL1 : Nat := 0

/-- Bit index RXCIE1 of UCSR1B (receive complete interrupt enable). -/
def RXCIE1 : Nat := 7

/-- Bit index RXEN1 of UCSR1B (receiver enable). -/
def RXEN1 : Nat := 4

/-- Bit index TXCIE1 of UCSR1B (transmit complete interrupt enable). -/
def TXCIE1 : Nat := 6

/-- Bit index TXEN1 of UCSR1B (transmitter enable). -/
def TXEN1 : Nat := 3

/-- Bit index UDRIE1 of UCSR1B (data register empty interrupt enable). -/
def UDRIE1 : Nat := 5

/-- Bit index UCSZ12 of UCSR1B (frame size field high bit). -/
def UCSZ12 : Nat := 2

/-- Bit index U2X1 of UCSR1A (double speed mode).  Note that this is a bit
INDEX, value 1; the source line UCSR1A = ubrr_div16 ? 0 : U2X1 uses it as a
register value without shifting. -/
def U2X1 : Nat := 1

/-- Bit index TXC1 of UCSR1A (transmit complete flag). -/
def TXC1 : Nat := 6

/-- Modelled from the spec: USART_MODE_RXEN is declared in hardware/usart.h,
which is absent from src.  The spec fixes it as a single-bit receive-enable
flag in the 16-bit mode word, distinct from the fixed bit fields 5..11 and
14..15; position taken as bit 12. -/
def USART_MODE_RXEN : Nat := 2 ^ 12

/-- Modelled from the spec: USART_MODE_TXEN is declared in hardware/usart.h,
which is absent from src.  The spec fixes it as a single-bit transmit-enable
flag in the 16-bit mode word, distinct from the fixed bit fields 5..11 and
14..15; position taken as bit 13. -/
def USART_MODE_TXEN : Nat := 2 ^ 13

/-- Modelled from the spec: FIFO_EVT_NEW is declared in hardware/fifo.h,
which is absent from src.  The spec describes it as the "new item" event
class bit of the queue event mask; position taken as bit 0. -/
def FIFO_EVT_NEW : Nat := 1

/-- The macro UBRR_VAL(f_cpu, baud) = ((f_cpu) + ((baud)/2))/(baud), in C
uint32 arithmetic.  For f_cpu, baud below 2 ^ 32 no intermediate value can
reach 2 ^ 32, so plain Nat arithmetic is exact; Nat division by zero yields
0, standing for the C division whose divisor is zero (see the checked
variant UBRR_VALchecked). -/
def UBRR_VAL (f_cpu baud : Nat) : Nat := (f_cpu + baud / 2) / baud

/-- Local ubrr_div16 of usart_init before the error comparison:
UBRR_VAL(F_CPU/16, baud). -/
def ubrr_div16 (clock baud : Nat) : Nat := UBRR_VAL (clock / 16) baud

/-- Local ubrr_div8 of usart_init: UBRR_VAL(F_CPU/8, baud). -/
def ubrr_div8 (clock baud : Nat) : Nat := UBRR_VAL (clock / 8) baud

/-- C uint32 subtraction a - b, reduced modulo 2 ^ 32. -/
def usub32 (a b : Nat) : Nat := (a % 2 ^ 32 + (2 ^ 32 - b % 2 ^ 32)) % 2 ^ 32

/-- The macro UBRR_ERR(f_cpu, div, baud) = ((f_cpu) * (div)) - (baud), in C
uint32 arithmetic (the product wraps modulo 2 ^ 32). -/
def UBRR_ERR (f_cpu d baud : Nat) : Nat := usub32 (f_cpu * d % 2 ^ 32) baud

/-- Conversion of a uint32 value to int32_t (two's complement
reinterpretation, as gcc implements the implementation-defined narrowing). -/
def toInt32 (v : Nat) : Int :=
  if v % 2 ^ 32 < 2 ^ 31 then (v % 2 ^ 32 : Nat) else (v % 2 ^ 32 : Nat) - 2 ^ 32

/-- The statement sequence if (err < 0) err = -err on an int32_t value;
negation of the most negative value wraps to itself in two's complement. -/
def absInt32 (e : Int) : Int :=
  if e < 0 then (if e = -(2 ^ 31) then e else -e) else e

/-- Value of the local err_div16 after the sign fix:
abs(int32(UBRR_ERR(F_CPU_DIV_16, ubrr_div16, baud))). -/
def err_div16 (clock baud : Nat) : Int :=
  absInt32 (toInt32 (UBRR_ERR (clock / 16) (ubrr_div16 clock baud) baud))

/-- Value of the local err_div8 after the sign fix:
abs(int32(UBRR_ERR(F_CPU_DIV_8, ubrr_div8, baud))). -/
def err_div8 (clock baud : Nat) : Int :=
  absInt32 (toInt32 (UBRR_ERR (clock / 8) (ubrr_div8 clock baud) baud))

/-- Value of the local ubrr_div16 after the comparison block: it is zeroed
("Ignore /16") exactly when both candidate divisors are non-zero and the /8
error is strictly smaller. -/
def sel_div16 (clock baud : Nat) : Nat :=
  if ubrr_div16 clock baud ≠ 0 ∧ ubrr_div8 clock baud ≠ 0 ∧
      err_div16 clock baud > err_div8 clock baud then 0
  else ubrr_div16 clock baud

/-- Divisor selected by usart_init: the ternary
(ubrr_div16) ? ubrr_div16 : ubrr_div8 evaluated after the comparison block. -/
def chosenDiv (clock baud : Nat) : Nat :=
  if sel_div16 clock baud ≠ 0 then sel_div16 clock baud else ubrr_div8 clock baud

/-- Value stored to UCSR1C (8-bit register, store truncates modulo 2 ^ 8). -/
def ucsr1c_val (mode : Nat) : Nat :=
  (((mode >>> 14 &&& 0x03) <<< UMSEL10) |||
   ((mode >>> 5 &&& 0x03) <<< UPM10) |||
   ((mode >>> 8 &&& 0x01) <<< USBS1) |||
   ((mode >>> 9 &&& 0x03) <<< UCSZ10) |||
   ((mode >>> 7 &&& 0x01) <<< UCPOL1)) % 2 ^ 8

/-- Value OR-ed into UCSR1B (which was first zeroed, so it is also the final
register value; 8-bit store truncates modulo 2 ^ 8). -/
def ucsr1b_val (mode : Nat) : Nat :=
  ((if mode &&& USART_MODE_RXEN ≠ 0 then (1 <<< RXCIE1) ||| (1 <<< RXEN1) else 0) |||
   (if mode &&& USART_MODE_TXEN ≠ 0 then (1 <<< TXCIE1) ||| (1 <<< TXEN1) ||| (1 <<< UDRIE1) else 0) |||
   ((mode >>> 11 &&& 0x01) <<< UCSZ12)) % 2 ^ 8

/-- The five memory-mapped USART1 registers touched by the driver.  UCSR1A,
UCSR1B, UCSR1C and UDR1 are 8-bit, UBRR1 is the 16-bit register pair; every
store in the model reduces modulo the register width, as the C stores do. -/
structure Regs where
  UCSR1A : Nat
  UCSR1B : Nat
  UCSR1C : Nat
  UBRR1 : Nat
  UDR1 : Nat
deriving DecidableEq

/-- Modelled from the spec: the byte queue of hardware/fifo.* (absent from
src).  A fixed-capacity buffer of bytes with a consumer event hook; the
handler field is modelled as a flag recording whether the driver installed
usart_txfifo_evth. -/
structure Fifo where
  cap : Nat
  data : List Nat
  consumer_evth : Bool
  consumer_evtm : Nat
deriving DecidableEq

/-- Driver-visible state: the register block and the two queues
usart_fifo_tx, usart_fifo_rx. -/
structure UsartSt where
  regs : Regs
  usart_fifo_tx : Fifo
  usart_fifo_rx : Fifo
deriving DecidableEq

/-- Modelled from the spec: fifo_read_one, the try_pop operation of the
queue collaborator.  Returns the oldest byte and the shrunken queue, or
none (the C function returns the int16 value -1) leaving the queue
unchanged. -/
def fifo_read_one (f : Fifo) : Option Nat × Fifo :=
  match f.data with
  | [] => (none, f)
  | b :: rest => (some b, { f with data := rest })

/-- Modelled from the spec: fifo_write_one, the try_push operation of the
queue collaborator.  Appends the byte when there is free space; when the
queue is full the byte is dropped and the queue is returned unchanged (the
failure result is not consulted by the receive interrupt handler). -/
def fifo_write_one (f : Fifo) (b : Nat) : Fifo :=
  if f.data.length < f.cap then { f with data := f.data ++ [b % 2 ^ 8] } else f

/-- The function usart_init of src/hardware/usart.c.  Parameters clock
(the build constant F_CPU, uint32), baud (uint32), mode (uint16); returns
the int8 result (-1 on failure, 0 on success) and the post state.  On the
success path the source writes UCSR1B = 0, then UCSR1C, UBRR1, UCSR1A,
then ORs the enable bits into UCSR1B, then installs the transmit queue
event handler; the model gives the resulting state. -/
def usart_init (clock baud mode : Nat) (s : UsartSt) : Int × UsartSt :=
  if ubrr_div16 clock baud = 0 ∧ ubrr_div8 clock baud = 0 then
    (-1, s)
  else
    (0,
      { regs :=
          { UCSR1A := (if sel_div16 clock baud ≠ 0 then 0 else U2X1) % 2 ^ 8
            UCSR1B := ucsr1b_val mode
            UCSR1C := ucsr1c_val mode
            UBRR1 := chosenDiv clock baud % 2 ^ 16
            UDR1 := s.regs.UDR1 }
        usart_fifo_tx :=
          { s.usart_fifo_tx with consumer_evth := true, consumer_evtm := FIFO_EVT_NEW }
        usart_fifo_rx := s.usart_fifo_rx })

/-- The function usart_send_next: pop one byte from the transmit queue and,
if one was present, store it to the data register UDR1. -/
def usart_send_next (s : UsartSt) : UsartSt :=
  match fifo_read_one s.usart_fifo_tx with
  | (none, tx) => { s with usart_fifo_tx := tx }
  | (some b, tx) =>
      { s with usart_fifo_tx := tx, regs := { s.regs with UDR1 := b % 2 ^ 8 } }

/-- The interrupt handler ISR(USART1_RX_vect): push the byte read from UDR1
onto the receive queue. -/
def isr_usart1_rx (s : UsartSt) : UsartSt :=
  { s with usart_fifo_rx := fifo_write_one s.usart_fifo_rx s.regs.UDR1 }

/-- The interrupt handler ISR(USART1_TX_vect): calls usart_send_next. -/
def isr_usart1_tx (s : UsartSt) : UsartSt := usart_send_next s

/-- The interrupt handler ISR(USART1_UDRE_vect): calls usart_send_next. -/
def isr_usart1_udre (s : UsartSt) : UsartSt := usart_send_next s

/-- The transmit queue event handler usart_txfifo_evth: on a new-item event,
set the TXC1 flag to kick the transmit complete interrupt. -/
def usart_txfifo_evth (events : Nat) (s : UsartSt) : UsartSt :=
  if events &&& FIFO_EVT_NEW ≠ 0 then
    { s with regs := { s.regs with UCSR1A := (s.regs.UCSR1A ||| (1 <<< TXC1)) % 2 ^ 8 } }
  else s

/-- Follows the words of the spec (section 4.1, step 1): the candidate
divisor as round-half-up of clock / (f * baud) with numerator clock and
denominator f * baud, i.e. (num + den/2) / den. -/
def specDivisor (clock f baud : Nat) : Nat :=
  (clock + (f * baud) / 2) / (f * baud)

/-- Follows the words of the spec (section 4.1, step 4 and section 3): the
exact absolute rounding error of factor f, the magnitude of clock (in the
native scale clock/f) times the candidate divisor minus the requested baud,
computed without any 32-bit truncation. -/
def specErrAbs (clock f baud : Nat) : Int :=
  |((clock / f : Nat) : Int) * (UBRR_VAL (clock / f) baud : Nat) - (baud : Nat)|

/-- Checked variant of UBRR_VAL: none when the C expression would divide by
zero, some of its value otherwise. -/
def UBRR_VALchecked (f_cpu baud : Nat) : Option Nat :=
  if baud = 0 then none else some ((f_cpu + baud / 2) / baud)

/-- True when every division executed by usart_init on the given inputs has
a non-zero divisor. -/
def usart_init_div_defined (clock baud : Nat) : Bool :=
  (UBRR_VALchecked (clock / 16) baud).isSome && (UBRR_VALchecked (clock / 8) baud).isSome

/-- An all-zero initial state with two empty queues of capacity 64. -/
def s0 : UsartSt :=
  { regs := { UCSR1A := 0, UCSR1B := 0, UCSR1C := 0, UBRR1 := 0, UDR1 := 0 }
    usart_fifo_tx := { cap := 64, data := [], consumer_evth := false, consumer_evtm := 0 }
    usart_fifo_rx := { cap := 64, data := [], consumer_evth := false, consumer_evtm := 0 } }

/-- A state whose transmit queue holds the two bytes 65 and 66. -/
def s1 : UsartSt :=
  { s0 with usart_fifo_tx := { cap := 64, data := [65, 66], consumer_evth := true, consumer_evtm := 1 } }

/-- A state whose receive queue (capacity 1) is full. -/
def s2 : UsartSt :=
  { s0 with usart_fifo_rx := { cap := 1, data := [7], consumer_evth := false, consumer_evtm := 0 } }

/-- Scaling a round-half-up division: dividing q with half-up rounding by b
agrees with dividing 2*c*q by 2*c*b under the same rounding, for any
positive c.  This is the arithmetic core relating the divisor computed on
the pre-divided clock to the spec formula on the full clock. -/
theorem half_round_scale (c q b : Nat) (hc : 0 < c) :
    (q + b / 2) / b = (2 * c * q + 2 * c * b / 2) / (2 * c * b) := by
  have h2 : 2 * c * b / 2 = c * b := by
    rw [Nat.mul_assoc]
    exact Nat.mul_div_cancel_left (c * b) (by norm_num)
  rw [h2]
  have h3 : 2 * c * q + c * b = c * (2 * q + b) := by ring
  have h4 : 2 * c * b = c * (2 * b) := by ring
  rw [h3, h4, Nat.mul_div_mul_left _ _ hc, ← Nat.div_div_eq_div_mul]
  congr 1
  omega

/-- Bits of the constant 3: set exactly below position 2. -/
theorem testBit_three (i : Nat) : Nat.testBit 3 i = decide (i < 2) := by
  have h := Nat.testBit_two_pow_sub_one 2 i
  norm_num at h
  exact h

/-- Bits of the constant 1: set exactly at position 0. -/
theorem testBit_one_lit (i : Nat) : Nat.testBit 1 i = decide (i = 0) := by
  have h := Nat.testBit_two_pow_sub_one 1 i
  norm_num at h
  exact h

/-- Bit-level description of the value stored to UCSR1C: each mode-word
field lands at its fixed register position. -/
theorem ucsr1c_val_testBits (mode : Nat) :
    (ucsr1c_val mode).testBit 6 = mode.testBit 14 ∧
    (ucsr1c_val mode).testBit 7 = mode.testBit 15 ∧
    (ucsr1c_val mode).testBit 4 = mode.testBit 5 ∧
    (ucsr1c_val mode).testBit 5 = mode.testBit 6 ∧
    (ucsr1c_val mode).testBit 3 = mode.testBit 8 ∧
    (ucsr1c_val mode).testBit 1 = mode.testBit 9 ∧
    (ucsr1c_val mode).testBit 2 = mode.testBit 10 ∧
    (ucsr1c_val mode).testBit 0 = mode.testBit 7 := by
  unfold ucsr1c_val UMSEL10 UPM10 USBS1 UCSZ10 UCPOL1
  refine ⟨?_, ?_, ?_, ?_, ?_, ?_, ?_, ?_⟩ <;>
    simp +decide [Nat.testBit_mod_two_pow, Nat.testBit_or, Nat.testBit_and,
      Nat.testBit_shiftLeft, Nat.testBit_shiftRight, testBit_three, testBit_one_lit,
      -Nat.reducePow, -Nat.and_one_is_mod]

/-- Bit-level description of the value stored to UCSR1B: the frame-size
high bit comes from mode bit 11, the receive flag drives exactly bits
RXCIE1 and RXEN1, the transmit flag drives exactly bits TXCIE1, TXEN1 and
UDRIE1, and the remaining bits stay clear. -/
theorem ucsr1b_val_testBits (mode : Nat) :
    (ucsr1b_val mode).testBit 2 = mode.testBit 11 ∧
    (mode &&& USART_MODE_RXEN ≠ 0 →
      (ucsr1b_val mode).testBit 7 = true ∧ (ucsr1b_val mode).testBit 4 = true) ∧
    (mode &&& USART_MODE_RXEN = 0 →
      (ucsr1b_val mode).testBit 7 = false ∧ (ucsr1b_val mode).testBit 4 = false) ∧
    (mode &&& USART_MODE_TXEN ≠ 0 →
      (ucsr1b_val mode).testBit 6 = true ∧ (ucsr1b_val mode).testBit 3 = true ∧
      (ucsr1b_val mode).testBit 5 = true) ∧
    (mode &&& USART_MODE_TXEN = 0 →
      (ucsr1b_val mode).testBit 6 = false ∧ (ucsr1b_val mode).testBit 3 = false ∧
      (ucsr1b_val mode).testBit 5 = false) ∧
    (ucsr1b_val mode).testBit 0 = false ∧
    (ucsr1b_val mode).testBit 1 = false := by
  unfold ucsr1b_val RXCIE1 RXEN1 TXCIE1 TXEN1 UDRIE1 UCSZ12
  by_cases hrx : mode &&& USART_MODE_RXEN = 0 <;>
    by_cases htx : mode &&& USART_MODE_TXEN = 0 <;>
      simp +decide [hrx, htx, Nat.testBit_mod_two_pow, Nat.testBit_or, Nat.testBit_and,
        Nat.testBit_shiftLeft, Nat.testBit_shiftRight, testBit_three, testBit_one_lit,
        -Nat.reducePow, -Nat.and_one_is_mod]

/-- C10: when both candidate divisors are zero, usart_init returns -1
before performing any side effect: the returned state is exactly the input
state, so no register is written and the transmit queue event handler and
event mask fields keep their prior values. -/
theorem c10_failure_no_side_effects (clock baud mode : Nat) (s : UsartSt)
    (h16 : ubrr_div16 clock baud = 0) (h8 : ubrr_div8 clock baud = 0) :
    usart_init clock baud mode s = (-1, s) := by
  simp [usart_init, h16, h8]

/-- Witness for C10 at clock 1, baud 1, where both divisors are zero. -/
theorem c10_failure_no_side_effects_witness :
    usart_init 1 1 0 s0 = (-1, s0) :=
  c10_failure_no_side_effects 1 1 0 s0 (by decide) (by decide)

/-- C5 evidence: for requested baud 0 every division executed by usart_init
has divisor zero — the checked evaluation yields none, so the division is
not structurally guarded and the C computation is undefined there — while
under the Nat convention that division by zero yields 0 the model does
return the UnachievableBaud failure leaving the state untouched. -/
theorem c5_zero_baud_division (clock mode : Nat) (s : UsartSt) :
    UBRR_VALchecked (clock / 16) 0 = none ∧
    UBRR_VALchecked (clock / 8) 0 = none ∧
    usart_init_div_defined clock 0 = false ∧
    usart_init clock 0 mode s = (-1, s) := by
  refine ⟨rfl, rfl, rfl, ?_⟩
  simp [usart_init, ubrr_div16, ubrr_div8, UBRR_VAL]

/-- C8: each invocation of the transmit-complete or data-register-empty
handler (both call usart_send_next) pops at most one byte from the transmit
queue, changes no hardware register except possibly UDR1, leaves the
receive queue alone; if the pop reports the queue empty the entire state —
every register included — is unchanged, and if the queue starts with byte b
then exactly b is written to UDR1 and exactly b is removed. -/
theorem c8_pump_single_byte (s : UsartSt) :
    isr_usart1_tx s = usart_send_next s ∧
    isr_usart1_udre s = usart_send_next s ∧
    ((usart_send_next s).usart_fifo_tx.data = s.usart_fifo_tx.data ∨
      (usart_send_next s).usart_fifo_tx.data = s.usart_fifo_tx.data.tail) ∧
    (usart_send_next s).regs.UCSR1A = s.regs.UCSR1A ∧
    (usart_send_next s).regs.UCSR1B = s.regs.UCSR1B ∧
    (usart_send_next s).regs.UCSR1C = s.regs.UCSR1C ∧
    (usart_send_next s).regs.UBRR1 = s.regs.UBRR1 ∧
    (usart_send_next s).usart_fifo_rx = s.usart_fifo_rx ∧
    (s.usart_fifo_tx.data = [] → usart_send_next s = s) ∧
    (∀ b rest, s.usart_fifo_tx.data = b :: rest →
      (usart_send_next s).regs.UDR1 = b % 2 ^ 8 ∧
      (usart_send_next s).usart_fifo_tx.data = rest) := by
  rcases h : s.usart_fifo_tx.data with - | ⟨b, rest⟩ <;>
    simp [isr_usart1_tx, isr_usart1_udre, usart_send_next, fifo_read_one, h]

/-- Witness for C8: popping from the two-byte queue of s1 writes 65 to UDR1
and leaves [66]; pumping the empty queue of s0 changes nothing. -/
theorem c8_pump_single_byte_witness :
    (usart_send_next s1).regs.UDR1 = 65 % 2 ^ 8 ∧
    (usart_send_next s1).usart_fifo_tx.data = [66] ∧
    usart_send_next s0 = s0 := by
  obtain ⟨-, -, -, -, -, -, -, -, -, hpop⟩ := c8_pump_single_byte s1
  obtain ⟨-, -, -, -, -, -, -, -, hempty, -⟩ := c8_pump_single_byte s0
  exact ⟨(hpop 65 [66] rfl).1, (hpop 65 [66] rfl).2, hempty rfl⟩

/-- C9: the receive-complete handler never blocks and surfaces no error:
with the receive queue full it returns the state entirely unchanged (the
received byte is dropped silently), and with free space it appends exactly
the byte read from the data register UDR1, touching neither the registers
nor the transmit queue. -/
theorem c9_rx_overflow_drop (s : UsartSt) :
    (¬ s.usart_fifo_rx.data.length < s.usart_fifo_rx.cap → isr_usart1_rx s = s) ∧
    (s.usart_fifo_rx.data.length < s.usart_fifo_rx.cap →
      (isr_usart1_rx s).usart_fifo_rx.data =
        s.usart_fifo_rx.data ++ [s.regs.UDR1 % 2 ^ 8] ∧
      (isr_usart1_rx s).usart_fifo_rx.cap = s.usart_fifo_rx.cap ∧
      (isr_usart1_rx s).regs = s.regs ∧
      (isr_usart1_rx s).usart_fifo_tx = s.usart_fifo_tx) := by
  constructor
  · intro h
    simp [isr_usart1_rx, fifo_write_one, h]
  · intro h
    simp [isr_usart1_rx, fifo_write_one, h]

/-- Witness for C9: the full queue of s2 drops the byte and the state is
unchanged; the empty queue of s0 receives the byte from UDR1. -/
theorem c9_rx_overflow_drop_witness :
    isr_usart1_rx s2 = s2 ∧
    (isr_usart1_rx s0).usart_fifo_rx.data =
      s0.usart_fifo_rx.data ++ [s0.regs.UDR1 % 2 ^ 8] := by
  refine ⟨(c9_rx_overflow_drop s2).1 (by decide), ?_⟩
  exact ((c9_rx_overflow_drop s0).2 (by decide)).1

/-- C1 counterexample: at clock 16000000 and baud 300 both candidate
divisors are non-zero and the exact absolute error of the /16 factor
(specErrAbs, following the spec formula without truncation) is strictly
smaller than that of /8, yet usart_init programs the /8 divisor 6667 and
writes the double-speed selecting value into UCSR1A — the int32-truncated
comparison of the source orders the two factors the other way around. -/
theorem c1_counterexample :
    ubrr_div16 16000000 300 = 3333 ∧
    ubrr_div8 16000000 300 = 6667 ∧
    specErrAbs 16000000 16 300 < specErrAbs 16000000 8 300 ∧
    (usart_init 16000000 300 0 s0).1 = 0 ∧
    (usart_init 16000000 300 0 s0).2.regs.UBRR1 = 6667 ∧
    (usart_init 16000000 300 0 s0).2.regs.UCSR1A = 1 := by decide

/-- C1 (amended): whenever both candidate divisors are non-zero, usart_init
succeeds and selects the factor whose absolute error as the source computes
it — the uint32 product (clock/f) * divisor_f minus baud, truncated to
int32 and then made non-negative (err_div16, err_div8) — is smaller, a tie
keeping the /16 factor; the /16 divisor is discarded only when the /8 error
is strictly smaller.  Because of the 32-bit truncation this machine error
can order the factors differently from the exact error of the spec. -/
theorem c1_selection (clock baud mode : Nat) (s : UsartSt)
    (h16 : ubrr_div16 clock baud ≠ 0) (h8 : ubrr_div8 clock baud ≠ 0) :
    (usart_init clock baud mode s).1 = 0 ∧
    (usart_init clock baud mode s).2.regs.UBRR1 =
      (if err_div16 clock baud > err_div8 clock baud then ubrr_div8 clock baud
       else ubrr_div16 clock baud) % 2 ^ 16 ∧
    (usart_init clock baud mode s).2.regs.UCSR1A =
      (if err_div16 clock baud > err_div8 clock baud then U2X1 else 0) := by
  have hok : ¬(ubrr_div16 clock baud = 0 ∧ ubrr_div8 clock baud = 0) :=
    fun h => h16 h.1
  by_cases hc : err_div16 clock baud > err_div8 clock baud
  · have hsel : sel_div16 clock baud = 0 := by
      simp [sel_div16, h16, h8, hc]
    simp [usart_init, hok, chosenDiv, hsel, hc, U2X1]
  · have hsel : sel_div16 clock baud = ubrr_div16 clock baud := by
      simp [sel_div16, hc]
    simp [usart_init, hok, chosenDiv, hsel, hc, h16]

/-- Witness for C1 at clock 16000000, baud 9600, where both divisors are
non-zero and the comparison keeps the /16 factor. -/
theorem c1_selection_witness :
    (usart_init 16000000 9600 0 s0).1 = 0 ∧
    (usart_init 16000000 9600 0 s0).2.regs.UBRR1 =
      (if err_div16 16000000 9600 > err_div8 16000000 9600 then ubrr_div8 16000000 9600
       else ubrr_div16 16000000 9600) % 2 ^ 16 ∧
    (usart_init 16000000 9600 0 s0).2.regs.UCSR1A =
      (if err_div16 16000000 9600 > err_div8 16000000 9600 then U2X1 else 0) :=
  c1_selection 16000000 9600 0 s0 (by decide) (by decide)

/-- C2 counterexample: at clock 15, baud 1 the /16 candidate computed by
the source is 0, while the spec formula (clock + (16*baud)/2)/(16*baud)
gives 1 — the source divides the clock by the factor first, flooring, so
the two disagree when the factor does not divide the clock. -/
theorem c2_counterexample :
    ubrr_div16 15 1 = 0 ∧
    specDivisor 15 16 1 = 1 ∧
    ubrr_div16 15 1 ≠ specDivisor 15 16 1 := by decide

/-- C2 (amended): the candidate divisors computed by usart_init are
(clock/16 + baud/2)/baud and (clock/8 + baud/2)/baud in floor arithmetic —
round-half-up applied to the clock already divided by the factor — and they
coincide with the spec formula (clock + (f*baud)/2)/(f*baud) whenever the
factor f divides the clock. -/
theorem c2_divisor_formula (clock baud : Nat) :
    ubrr_div16 clock baud = (clock / 16 + baud / 2) / baud ∧
    ubrr_div8 clock baud = (clock / 8 + baud / 2) / baud ∧
    (16 ∣ clock → ubrr_div16 clock baud = specDivisor clock 16 baud) ∧
    (8 ∣ clock → ubrr_div8 clock baud = specDivisor clock 8 baud) := by
  refine ⟨rfl, rfl, ?_, ?_⟩
  · rintro ⟨k, rfl⟩
    unfold ubrr_div16 UBRR_VAL specDivisor
    rw [Nat.mul_div_cancel_left k (by norm_num : (0 : Nat) < 16)]
    have h := half_round_scale 8 k baud (by norm_num)
    norm_num at h ⊢
    exact h
  · rintro ⟨k, rfl⟩
    unfold ubrr_div8 UBRR_VAL specDivisor
    rw [Nat.mul_div_cancel_left k (by norm_num : (0 : Nat) < 8)]
    have h := half_round_scale 4 k baud (by norm_num)
    norm_num at h ⊢
    exact h

/-- Witness for C2 at clock 16000000 (divisible by 16), baud 9600. -/
theorem c2_divisor_formula_witness :
    ubrr_div16 16000000 9600 = specDivisor 16000000 16 9600 :=
  (c2_divisor_formula 16000000 9600).2.2.1 (by norm_num)

/-- C3 counterexample: at clock 16000000, baud 9600 both divisors are
non-zero and the /16 factor wins (its divisor 104 is programmed), yet the
double-speed bit — bit U2X1 = 1 of the written UCSR1A — is false, refuting
the claim that this bit is set exactly when the /16 factor wins. -/
theorem c3_counterexample :
    (usart_init 16000000 9600 0 s0).1 = 0 ∧
    ubrr_div16 16000000 9600 = 104 ∧
    ubrr_div8 16000000 9600 = 208 ∧
    (usart_init 16000000 9600 0 s0).2.regs.UBRR1 = 104 ∧
    Nat.testBit (usart_init 16000000 9600 0 s0).2.regs.UCSR1A U2X1 = false ∧
    (usart_init 16000000 9600 0 s0).2.regs.UCSR1A = 0 := by decide

/-- C3 (amended): on every successful initialisation UCSR1A is written the
value 1 — the numeric bit index U2X1, which is the MPCM1 bit position, the
1 << U2X1 shift being omitted in the source — exactly when the /8 factor
wins the selection (sel_div16 = 0), and 0 when /16 wins; in particular the
actual double-speed bit, bit 1 of UCSR1A, is never set. -/
theorem c3_ucsr1a_value (clock baud mode : Nat) (s : UsartSt)
    (hok : ¬(ubrr_div16 clock baud = 0 ∧ ubrr_div8 clock baud = 0)) :
    ((usart_init clock baud mode s).2.regs.UCSR1A =
      if sel_div16 clock baud ≠ 0 then 0 else U2X1) ∧
    Nat.testBit (usart_init clock baud mode s).2.regs.UCSR1A U2X1 = false := by
  have h : (usart_init clock baud mode s).2.regs.UCSR1A =
      (if sel_div16 clock baud ≠ 0 then 0 else U2X1) % 2 ^ 8 := by
    simp [usart_init, hok]
  rw [h]
  constructor
  · split_ifs <;> decide
  · split_ifs <;> decide

/-- Witness for C3 at clock 16000000, baud 300, where the /8 factor wins
and UCSR1A receives the unshifted value 1. -/
theorem c3_ucsr1a_value_witness :
    ((usart_init 16000000 300 0 s0).2.regs.UCSR1A =
      if sel_div16 16000000 300 ≠ 0 then 0 else U2X1) ∧
    Nat.testBit (usart_init 16000000 300 0 s0).2.regs.UCSR1A U2X1 = false :=
  c3_ucsr1a_value 16000000 300 0 s0 (by decide)

/-- C4 counterexample: at clock 1048576, baud 1 both divisors are non-zero
and usart_init succeeds, yet the baud-rate register receives 0: the
selected divisor 65536 is truncated by the 16-bit register store. -/
theorem c4_counterexample :
    0 < (1048576 : Nat) ∧ 0 < (1 : Nat) ∧
    (usart_init 1048576 1 0 s0).1 = 0 ∧
    chosenDiv 1048576 1 = 65536 ∧
    (usart_init 1048576 1 0 s0).2.regs.UBRR1 = 0 := by decide

/-- C4 (amended): for clock > 0 and baud > 0, usart_init fails with -1
exactly when both candidate divisors are zero; otherwise it succeeds, the
selected 32-bit divisor is at least 1, and the 16-bit baud-rate register
receives that divisor reduced modulo 2 ^ 16 — which is at least 1 only when
the divisor does not overflow 16 bits. -/
theorem c4_divisor_positive (clock baud mode : Nat) (s : UsartSt)
    (_hclock : 0 < clock) (_hbaud : 0 < baud) :
    ((usart_init clock baud mode s).1 = -1 ↔
      (ubrr_div16 clock baud = 0 ∧ ubrr_div8 clock baud = 0)) ∧
    ((usart_init clock baud mode s).1 = 0 →
      1 ≤ chosenDiv clock baud ∧
      (usart_init clock baud mode s).2.regs.UBRR1 = chosenDiv clock baud % 2 ^ 16) := by
  by_cases hg : ubrr_div16 clock baud = 0 ∧ ubrr_div8 clock baud = 0
  · constructor
    · simp [usart_init, hg]
    · intro h
      rw [usart_init, if_pos hg] at h
      simp at h
  · constructor
    · constructor
      · intro h
        rw [usart_init, if_neg hg] at h
        simp at h
      · intro h
        exact absurd h hg
    · intro _
      have hchosen : chosenDiv clock baud ≠ 0 := by
        unfold chosenDiv
        split_ifs with hs
        · exact hs
        · push_neg at hs
          unfold sel_div16 at hs
          split_ifs at hs with hcond
          · exact hcond.2.1
          · intro h8z
            exact hg ⟨hs, h8z⟩
      refine ⟨Nat.one_le_iff_ne_zero.mpr hchosen, ?_⟩
      simp [usart_init, hg]

/-- Witness for C4 at clock 16000000, baud 9600, a successful case. -/
theorem c4_divisor_positive_witness :
    1 ≤ chosenDiv 16000000 9600 ∧
    (usart_init 16000000 9600 0 s0).2.regs.UBRR1 = chosenDiv 16000000 9600 % 2 ^ 16 :=
  (c4_divisor_positive 16000000 9600 0 s0 (by decide) (by decide)).2 (by decide)

/-- C6: on every successful initialisation the control registers follow the
fixed bit-position mapping of the mode word: bits 14 and 15 land in the
USART-mode field (UCSR1C bits 6 and 7), bits 5 and 6 in the parity field
(UCSR1C bits 4 and 5), bit 8 in the stop-bit select (UCSR1C bit 3), bits 9
and 10 in the low frame-size field (UCSR1C bits 1 and 2), bit 11 in the
high frame-size bit (UCSR1B bit 2, the 3-bit frame size being split across
the two registers), bit 7 in the clock-polarity bit (UCSR1C bit 0); the
receive-enable flag drives exactly RXCIE1 and RXEN1, the transmit-enable
flag drives exactly TXCIE1, TXEN1 and UDRIE1, and the remaining UCSR1B
bits stay clear. -/
theorem c6_register_mapping (clock baud mode : Nat) (s : UsartSt)
    (hok : ¬(ubrr_div16 clock baud = 0 ∧ ubrr_div8 clock baud = 0)) :
    ((usart_init clock baud mode s).2.regs.UCSR1C.testBit 6 = mode.testBit 14 ∧
     (usart_init clock baud mode s).2.regs.UCSR1C.testBit 7 = mode.testBit 15 ∧
     (usart_init clock baud mode s).2.regs.UCSR1C.testBit 4 = mode.testBit 5 ∧
     (usart_init clock baud mode s).2.regs.UCSR1C.testBit 5 = mode.testBit 6 ∧
     (usart_init clock baud mode s).2.regs.UCSR1C.testBit 3 = mode.testBit 8 ∧
     (usart_init clock baud mode s).2.regs.UCSR1C.testBit 1 = mode.testBit 9 ∧
     (usart_init clock baud mode s).2.regs.UCSR1C.testBit 2 = mode.testBit 10 ∧
     (usart_init clock baud mode s).2.regs.UCSR1C.testBit 0 = mode.testBit 7) ∧
    ((usart_init clock baud mode s).2.regs.UCSR1B.testBit 2 = mode.testBit 11) ∧
    (mode &&& USART_MODE_RXEN ≠ 0 →
      (usart_init clock baud mode s).2.regs.UCSR1B.testBit RXCIE1 = true ∧
      (usart_init clock baud mode s).2.regs.UCSR1B.testBit RXEN1 = true) ∧
    (mode &&& USART_MODE_RXEN = 0 →
      (usart_init clock baud mode s).2.regs.UCSR1B.testBit RXCIE1 = false ∧
      (usart_init clock baud mode s).2.regs.UCSR1B.testBit RXEN1 = false) ∧
    (mode &&& USART_MODE_TXEN ≠ 0 →
      (usart_init clock baud mode s).2.regs.UCSR1B.testBit TXCIE1 = true ∧
      (usart_init clock baud mode s).2.regs.UCSR1B.testBit TXEN1 = true ∧
      (usart_init clock baud mode s).2.regs.UCSR1B.testBit UDRIE1 = true) ∧
    (mode &&& USART_MODE_TXEN = 0 →
      (usart_init clock baud mode s).2.regs.UCSR1B.testBit TXCIE1 = false ∧
      (usart_init clock baud mode s).2.regs.UCSR1B.testBit TXEN1 = false ∧
      (usart_init clock baud mode s).2.regs.UCSR1B.testBit UDRIE1 = false) ∧
    (usart_init clock baud mode s).2.regs.UCSR1B.testBit 0 = false ∧
    (usart_init clock baud mode s).2.regs.UCSR1B.testBit 1 = false := by
  have hC : (usart_init clock baud mode s).2.regs.UCSR1C = ucsr1c_val mode := by
    simp [usart_init, hok]
  have hB : (usart_init clock baud mode s).2.regs.UCSR1B = ucsr1b_val mode := by
    simp [usart_init, hok]
  rw [hC, hB]
  obtain ⟨hc1, hc2, hc3, hc4, hc5, hc6, hc7, hc8⟩ := ucsr1c_val_testBits mode
  obtain ⟨hb1, hb2, hb3, hb4, hb5, hb6, hb7⟩ := ucsr1b_val_testBits mode
  exact ⟨⟨hc1, hc2, hc3, hc4, hc5, hc6, hc7, hc8⟩, hb1, hb2, hb3, hb4, hb5, hb6, hb7⟩

/-- Witness for C6 at clock 16000000, baud 9600, mode 40960 (both enable
flags set, all field bits clear). -/
theorem c6_register_mapping_witness :
    ((usart_init 16000000 9600 40960 s0).2.regs.UCSR1C.testBit 6 = Nat.testBit 40960 14 ∧
     (usart_init 16000000 9600 40960 s0).2.regs.UCSR1C.testBit 7 = Nat.testBit 40960 15 ∧
     (usart_init 16000000 9600 40960 s0).2.regs.UCSR1C.testBit 4 = Nat.testBit 40960 5 ∧
     (usart_init 16000000 9600 40960 s0).2.regs.UCSR1C.testBit 5 = Nat.testBit 40960 6 ∧
     (usart_init 16000000 9600 40960 s0).2.regs.UCSR1C.testBit 3 = Nat.testBit 40960 8 ∧
     (usart_init 16000000 9600 40960 s0).2.regs.UCSR1C.testBit 1 = Nat.testBit 40960 9 ∧
     (usart_init 16000000 9600 40960 s0).2.regs.UCSR1C.testBit 2 = Nat.testBit 40960 10 ∧
     (usart_init 16000000 9600 40960 s0).2.regs.UCSR1C.testBit 0 = Nat.testBit 40960 7) ∧
    ((usart_init 16000000 9600 40960 s0).2.regs.UCSR1B.testBit 2 = Nat.testBit 40960 11) ∧
    (40960 &&& USART_MODE_RXEN ≠ 0 →
      (usart_init 16000000 9600 40960 s0).2.regs.UCSR1B.testBit RXCIE1 = true ∧
      (usart_init 16000000 9600 40960 s0).2.regs.UCSR1B.testBit RXEN1 = true) ∧
    (40960 &&& USART_MODE_RXEN = 0 →
      (usart_init 16000000 9600 40960 s0).2.regs.UCSR1B.testBit RXCIE1 = false ∧
      (usart_init 16000000 9600 40960 s0).2.regs.UCSR1B.testBit RXEN1 = false) ∧
    (40960 &&& USART_MODE_TXEN ≠ 0 →
      (usart_init 16000000 9600 40960 s0).2.regs.UCSR1B.testBit TXCIE1 = true ∧
      (usart_init 16000000 9600 40960 s0).2.regs.UCSR1B.testBit TXEN1 = true ∧
      (usart_init 16000000 9600 40960 s0).2.regs.UCSR1B.testBit UDRIE1 = true) ∧
    (40960 &&& USART_MODE_TXEN = 0 →
      (usart_init 16000000 9600 40960 s0).2.regs.UCSR1B.testBit TXCIE1 = false ∧
      (usart_init 16000000 9600 40960 s0).2.regs.UCSR1B.testBit TXEN1 = false ∧
      (usart_init 16000000 9600 40960 s0).2.regs.UCSR1B.testBit UDRIE1 = false) ∧
    (usart_init 16000000 9600 40960 s0).2.regs.UCSR1B.testBit 0 = false ∧
    (usart_init 16000000 9600 40960 s0).2.regs.UCSR1B.testBit 1 = false :=
  c6_register_mapping 16000000 9600 40960 s0 (by decide)

/-- C7: when exactly one prescaler factor yields a non-zero divisor,
usart_init succeeds and selects that factor unconditionally — the /16
divisor with UCSR1A written 0 when only /16 is feasible, the /8 divisor
with the double-speed selecting value when only /8 is feasible — and the
error comparison plays no part in either case. -/
theorem c7_sole_factor (clock baud mode : Nat) (s : UsartSt) :
    (ubrr_div16 clock baud ≠ 0 → ubrr_div8 clock baud = 0 →
      (usart_init clock baud mode s).1 = 0 ∧
      (usart_init clock baud mode s).2.regs.UBRR1 = ubrr_div16 clock baud % 2 ^ 16 ∧
      (usart_init clock baud mode s).2.regs.UCSR1A = 0) ∧
    (ubrr_div16 clock baud = 0 → ubrr_div8 clock baud ≠ 0 →
      (usart_init clock baud mode s).1 = 0 ∧
      (usart_init clock baud mode s).2.regs.UBRR1 = ubrr_div8 clock baud % 2 ^ 16 ∧
      (usart_init clock baud mode s).2.regs.UCSR1A = U2X1) := by
  constructor
  · intro h16 h8
    have hsel : sel_div16 clock baud = ubrr_div16 clock baud := by
      simp [sel_div16, h8]
    simp [usart_init, chosenDiv, hsel, h16, h8]
  · intro h16 h8
    have hsel : sel_div16 clock baud = 0 := by
      simp [sel_div16, h16]
    simp [usart_init, chosenDiv, hsel, h16, h8, U2X1]

/-- Witness for C7 at clock 16, baud 3, where only the /8 factor yields a
non-zero divisor. -/
theorem c7_sole_factor_witness :
    (usart_init 16 3 0 s0).1 = 0 ∧
    (usart_init 16 3 0 s0).2.regs.UBRR1 = ubrr_div8 16 3 % 2 ^ 16 ∧
    (usart_init 16 3 0 s0).2.regs.UCSR1A = U2X1 :=
  (c7_sole_factor 16 3 0 s0).2 (by decide) (by decide)

end Usart
